import Mathlib

/-!
Verification development for the EIT section filter (eit.c) of the VDR
repository: a shallow embedding of the EPG reconciliation engine
(cEIT::cEIT), the per-service table trackers (cEitTables), and the
time-synchronisation logic (cTDT::cTDT), together with theorems about the
merge policy, gating, pruning, and clock-adjustment behaviour.

The embedding follows src/eit.c line by line. Collaborator classes whose
bodies live outside the provided sources (cSectionSyncer, cSchedule and
cEvent accessors/mutators, the default cEpgHandlers behaviour) are modelled
from the specification; each such definition carries a doc comment starting
with "Modelled from the spec:". The external EPG handler hooks are modelled
in their default (no registered handler) behaviour, and the channel/schedule
store locks are modelled as always succeeding: the claims under study all
concern the success path, and the failure paths release every key with
modified = false exactly like the early-return paths that are modelled.
-/

-- SI running status enumeration values (libsi/si.h); the spec glossary gives
-- the ordering undefined / not running / starts shortly / pausing / running.
def RunningStatusUndefined : Nat := 0
def RunningStatusNotRunning : Nat := 1
def RunningStatusStartsInAFewSeconds : Nat := 2
def RunningStatusPausing : Nat := 3
def RunningStatusRunning : Nat := 4

-- VALID_TIME (eit.c line 38): two years, in seconds.
def VALID_TIME : Int := 31536000 * 2

/-- Modelled from the spec: an Event record of a Schedule. Fields are the
identifiers and attributes the reconciler touches: event id, start time,
duration, provenance table id, version, running status, the "seen" flag and
the timer flag, plus the descriptor-derived text payload (title, short text,
description) that the descriptor merge writes. The cEvent constructor and
accessors live in epg.c, which is not among the provided sources. -/
structure cEvent where
  eventID : Nat
  startTime : Int
  duration : Int
  tableID : Nat
  version : Nat
  runningStatus : Nat
  seen : Bool
  hasTimer : Bool
  title : Option String
  shortText : Option String
  description : Option String
deriving DecidableEq, Repr

/-- Modelled from the spec: `new cEvent(EventID)` — a fresh event carries the
given event id, zeroed times, an out-of-range provenance marker (0xFF) and
version (0xFF), undefined running status, and no text. -/
def mkEvent (id : Nat) : cEvent :=
  { eventID := id, startTime := 0, duration := 0, tableID := 0xFF,
    version := 0xFF, runningStatus := RunningStatusUndefined, seen := false,
    hasTimer := false, title := none, shortText := none, description := none }

def dfltEvent : cEvent := mkEvent 0

/-- Modelled from the spec: a Schedule is a per-channel collection of events
with a flag recording whether it has ever received 0x5X data (OnActualTp)
and a "present seen" flag. cSchedule lives in epg.c (not provided). -/
structure cSchedule where
  events : List cEvent
  onActualTp : Bool
  presentSeen : Bool
deriving DecidableEq, Repr

/-- Modelled from the spec: `cSchedule::GetEventById` — lookup by event id
(returns the index of the first event with the given id). -/
def findIdxById (l : List cEvent) (id : Nat) : Option Nat :=
  l.findIdx? (fun e => e.eventID = id)

/-- Modelled from the spec: `cSchedule::GetEventByTime` — lookup by exact
start time (returns the index of the first event with the given start). -/
def findIdxByTime (l : List cEvent) (t : Int) : Option Nat :=
  l.findIdx? (fun e => e.startTime = t)

-- Identity resolution, eit.c lines 168-171: for table 0x4E or the 0x5X range
-- the existing event is looked up by event id, otherwise (0x6X) by start time.
def lookupEventIdx (tid : Nat) (l : List cEvent) (id : Nat) (t : Int) : Option Nat :=
  if tid = 0x4E ∨ tid &&& 0xF0 = 0x50 then findIdxById l id else findIdxByTime l t

/-- Modelled from the spec: `cSchedule::OnActualTp(TableId)` — the schedule
permanently remembers having received data from the 0x5X (actual-TP) range
and reports that flag. Returns the (updated) flag and the updated schedule. -/
def cSchedule.onActualTpUpd (s : cSchedule) (tid : Nat) : Bool × cSchedule :=
  let s' := if tid &&& 0xF0 = 0x50 then { s with onActualTp := true } else s
  (s'.onActualTp, s')

/-- Modelled from the spec: re-sort the schedule's events by start time
(`cEpgHandlers::SortSchedule` / `cSchedule::Sort`), via insertion sort. -/
def insertByStart (e : cEvent) : List cEvent → List cEvent
  | [] => [e]
  | f :: fs => if e.startTime ≤ f.startTime then e :: f :: fs else f :: insertByStart e fs

def sortByStart (l : List cEvent) : List cEvent := l.foldr insertByStart []

def sortSchedule (s : cSchedule) : cSchedule := { s with events := sortByStart s.events }

/-- Modelled from the spec: `cSchedule::DropOutdated` — drop events fully
outside the window `[segStart, segEnd]` unless they end after
`now - lingerTime` (a recently ended event is retained briefly). -/
def dropOutdated (s : cSchedule) (segStart segEnd now linger : Int) : cSchedule :=
  { s with events := s.events.filter (fun e =>
      !(decide ((e.startTime + e.duration < segStart ∨ segEnd < e.startTime)
                 ∧ e.startTime + e.duration ≤ now - linger))) }

/-- Modelled from the spec: cSectionSyncer (tools.h/tools.c, not among the
provided sources) — per table-id slot, the last-seen version, the set of
section numbers already seen for that version, the two "last" bounds and a
completion flag. -/
structure cSectionSyncer where
  version : Option Nat
  seen : List Nat
  lastSectionNumber : Nat
  segmentLastSectionNumber : Nat
  complete : Bool
deriving DecidableEq, Repr

def freshSyncer : cSectionSyncer :=
  { version := none, seen := [], lastSectionNumber := 0,
    segmentLastSectionNumber := 0, complete := false }

/-- Modelled from the spec: `cSectionSyncer::Check(Version, SectionNumber)` —
a version change resets the state (clearing the seen set) and returns true;
otherwise return false iff the section was already seen. -/
def cSectionSyncer.check (s : cSectionSyncer) (version sectionNumber : Nat) :
    Bool × cSectionSyncer :=
  let s := if s.version ≠ some version then
             { freshSyncer with version := some version }
           else s
  (!(s.seen.contains sectionNumber), s)

/-- Modelled from the spec: `cSectionSyncer::Processed` — mark the section
seen (segment-aware: when the section is the last of its 8-section segment,
the untransmitted remainder of the segment counts as seen), store the two
"last" bounds, and return true iff every section number from 0 to the last
section number has been seen for the current version. -/
def cSectionSyncer.processed (s : cSectionSyncer)
    (sectionNumber lastSectionNumber segmentLastSectionNumber : Nat) :
    Bool × cSectionSyncer :=
  let segEnd := (sectionNumber / 8) * 8 + 7
  let extra := if sectionNumber = segmentLastSectionNumber then
                 (List.range (segEnd + 1)).filter (fun k => sectionNumber < k)
               else []
  let seen := sectionNumber :: extra ++ s.seen
  let complete := (List.range (lastSectionNumber + 1)).all (fun k => seen.contains k)
  (complete,
   { s with
     seen := seen
     lastSectionNumber := lastSectionNumber
     segmentLastSectionNumber := segmentLastSectionNumber
     complete := complete })

/-- cEitTables (eit.c lines 44-72): one section syncer per table-id slot in
the ordered set {0x4E, 0x50..0x6F}, a hierarchy-wide completion flag, and
the cached present/following window for table 0x4E. -/
structure cEitTables where
  sectionSyncer : Nat → cSectionSyncer
  complete : Bool
  tableStart : Int
  tableEnd : Int

/-- Modelled from the spec: `cEitTables::Index(TableId)` (eit.h, not among
the provided sources) — slot 0 for 0x4E, slots 1..0x20 for 0x50..0x6F. -/
def eitIndex (tableId : Nat) : Nat :=
  if tableId = 0x4E then 0 else tableId - 0x4F

-- cEitTables constructor, eit.c lines 44-49.
def cEitTables.init : cEitTables :=
  { sectionSyncer := fun _ => freshSyncer, complete := false,
    tableStart := 0, tableEnd := 0 }

-- cEitTables::Check, eit.c lines 51-55.
def cEitTables.check (t : cEitTables) (tableId version sectionNumber : Nat) :
    Bool × cEitTables :=
  let ti := eitIndex tableId
  let cs := (t.sectionSyncer ti).check version sectionNumber
  (cs.1, { t with sectionSyncer := fun j => if j = ti then cs.2 else t.sectionSyncer j })

-- cEitTables::Processed, eit.c lines 57-72: the result reports completion of
-- the single table with TableId; the `complete` member is set only when every
-- syncer up to the index of LastTableId reports complete.
def cEitTables.processed (t : cEitTables)
    (tableId lastTableId sectionNumber lastSectionNumber segmentLastSectionNumber : Nat) :
    Bool × cEitTables :=
  let ti := eitIndex tableId
  let lastIndex := eitIndex lastTableId
  let ps :=
    (t.sectionSyncer ti).processed sectionNumber lastSectionNumber segmentLastSectionNumber
  let syncers := fun j => if j = ti then ps.2 else t.sectionSyncer j
  if ps.1 then
    let allComplete := (List.range (lastIndex + 1)).all (fun i => (syncers i).complete)
    (true, { t with sectionSyncer := syncers, complete := allComplete })
  else
    (false, { t with sectionSyncer := syncers, complete := false })

/-- One decoded event record of an EIT section, as delivered by the external
section-parsing library (SI::EIT::Event): event id, start time, duration,
running status, and the descriptor payload reduced to its effect points —
the preferred-language short event descriptor (name, text), the accumulated
extended event text, and whether a linkage descriptor would modify the
channel store (modelled from the spec: linkage processing may set channel
names/links, reported through the ChannelsModified flag). -/
structure SiEitEvent where
  eventId : Nat
  startTime : Int
  duration : Int
  runningStatus : Nat
  shortEvent : Option (String × String)
  extendedText : Option String
  hasChannelLink : Bool
deriving DecidableEq, Repr

/-- One decoded, CRC-valid EIT section (header fields used by cEIT::cEIT). -/
structure EitSection where
  tid : Nat
  version : Nat
  sectionNumber : Nat
  lastSectionNumber : Nat
  segmentLastSectionNumber : Nat
  lastTableId : Nat
  events : List SiEitEvent
deriving Repr

/-- The per-service state cEIT::cEIT operates on: the table trackers for the
service, the channel's schedule, the current time, and the configured EPG
linger time (EPG_LINGER_TIME). -/
structure EitState where
  eitTables : cEitTables
  schedule : cSchedule
  now : Int
  lingerTime : Int

/-- Where processing of a section stopped: rejected at the version/section
gate (eit.c lines 92-94), rejected by the current-time plausibility check
(lines 96-98), aborted by the OnActualTp precedence gate (lines 120-124),
or ran the per-event loop to the end (completed). -/
inductive Stage where
  | gateReject
  | invalidTime
  | onActualTpAbort
  | completed
deriving DecidableEq, Repr

/-- The observable outcome of processing one section: final tracker state and
schedule, the two modification flags passed to the state-key releases
(SchedulesStateKey.Remove(Modified), ChannelsStateKey.Remove(ChannelsModified)),
whether ClrRunningStatus was invoked (modelled from the spec: clearing the
schedule's running status is recorded as an observable action, its body
lives in epg.c), and the window passed to DropOutdated when pruning ran. -/
structure ProcessResult where
  stage : Stage
  eitTables : cEitTables
  schedule : cSchedule
  scheduleModified : Bool
  channelsModified : Bool
  clearedRunningStatus : Bool
  prunedWindow : Option (Int × Int)

/-- Per-event loop context: section header fields, the gate result `Process`,
and the linger limit `Now - EPG_LINGER_TIME` (eit.c line 137). -/
structure EventCtx where
  tid : Nat
  version : Nat
  sectionNumber : Nat
  process : Bool
  lingerLimit : Int

/-- Loop-carried state of the per-event loop (eit.c lines 132-144). -/
structure LoopState where
  schedule : cSchedule
  tables : cEitTables
  empty : Bool
  modified : Bool
  channelsModified : Bool
  segmentStart : Int
  segmentEnd : Int

-- Running status override, eit.c lines 201-226: the value actually passed to
-- pSchedule->SetRunningStatus after the workaround for broadcasters who set
-- an event to "not running" where this is inappropriate.
def computeRunningStatus (sectionNumber runningStatus current : Nat) : Nat :=
  if runningStatus ≠ current then
    if runningStatus = RunningStatusNotRunning then
      let overrideStatus : Int :=
        if sectionNumber = 0 then
          if current = RunningStatusPausing then (RunningStatusPausing : Nat) else -1
        else (RunningStatusUndefined : Nat)
      if 0 ≤ overrideStatus then overrideStatus.toNat else runningStatus
    else runningStatus
  else runningStatus

/-- Classification of one event record by the two leading rejection checks of
the per-event loop, eit.c lines 150-155: bogus (start time zero, or positive
start time with zero duration), expired (ends before the linger limit;
checked after the section has been marked non-empty), or kept. -/
inductive EventGate where
  | bogus
  | expired
  | keep
deriving DecidableEq, Repr

def eventGate (startTime duration lingerLimit : Int) : EventGate :=
  if startTime = 0 ∨ (0 < startTime ∧ duration = 0) then .bogus
  else if startTime + duration < lingerLimit then .expired
  else .keep

-- Field merge after the running-status block, eit.c lines 232 and 389-409:
-- stamp the version, then apply the short/extended descriptor results (or
-- clear the texts when absent). The returned booleans are "Modified was set"
-- (line 414) and "channel store touched by a linkage descriptor".
def mergeFields (ctx : EventCtx) (ev : SiEitEvent) (e : cEvent) : cEvent × Bool × Bool :=
  let e := { e with version := ctx.version }
  let e := match ev.shortEvent with
           | some se => { e with title := some se.1, shortText := some se.2 }
           | none => { e with title := none, shortText := none }
  let e := { e with description := ev.extendedText }
  (e, true, ev.hasChannelLink)

-- Common tail of the per-event loop, eit.c lines 198-231: update the
-- provenance marker unless it is at or below 0x4E, evaluate the running
-- status for the present/following table, and for a 0x4E section with an
-- unchanged version/section ("!Process") stop before the version stamp and
-- descriptor merge (the `continue` at line 230).
def finishEvent (ctx : EventCtx) (ev : SiEitEvent) (e : cEvent) : cEvent × Bool × Bool :=
  let e := if 0x4E < e.tableID then { e with tableID := ctx.tid } else e
  if ctx.tid = 0x4E then
    let e := if RunningStatusNotRunning ≤ ev.runningStatus then
               { e with runningStatus :=
                   computeRunningStatus ctx.sectionNumber ev.runningStatus e.runningStatus }
             else e
    if ctx.process then mergeFields ctx ev e else (e, false, false)
  else mergeFields ctx ev e

-- Body of the per-event loop for an event that passed the bogus and linger
-- checks, eit.c lines 156-418: segment window tracking, the cached 0x4E
-- window, identity resolution, creation vs update (with the
-- present/following protection at lines 186-189), and the common tail.
def processValidEvent (ctx : EventCtx) (ls : LoopState) (ev : SiEitEvent) : LoopState :=
  let startTime := ev.startTime
  let duration := ev.duration
  let segmentStart := if ls.segmentStart = 0 then startTime else ls.segmentStart
  let segmentEnd := startTime + duration
  let tables :=
    if ctx.tid = 0x4E then
      if ctx.sectionNumber = 0 then { ls.tables with tableStart := segmentStart }
      else { ls.tables with tableEnd := segmentEnd }
    else ls.tables
  let ls := { ls with
              segmentStart := segmentStart
              segmentEnd := segmentEnd
              tables := tables }
  match lookupEventIdx ctx.tid ls.schedule.events ev.eventId startTime with
  | none =>
      let newEvent := { mkEvent ev.eventId with startTime := startTime, duration := duration }
      let r := finishEvent ctx ev newEvent
      { ls with
        schedule := { ls.schedule with events := ls.schedule.events ++ [r.1] }
        modified := ls.modified || r.2.1
        channelsModified := ls.channelsModified || r.2.2 }
  | some i =>
      let e0 := ls.schedule.events.getD i dfltEvent
      let e1 := { e0 with seen := true }
      if Nat.max e1.tableID 0x4E = 0x4E ∧ ctx.tid ≠ 0x4E then
        { ls with schedule := { ls.schedule with events := ls.schedule.events.set i e1 } }
      else
        let e2 := { e1 with
                    eventID := ev.eventId
                    startTime := startTime
                    duration := duration }
        let r := finishEvent ctx ev e2
        { ls with
          schedule := { ls.schedule with events := ls.schedule.events.set i r.1 }
          modified := ls.modified || r.2.1
          channelsModified := ls.channelsModified || r.2.2 }

-- One iteration of the per-event loop, eit.c lines 144-418.
def processEvent (ctx : EventCtx) (ls : LoopState) (ev : SiEitEvent) : LoopState :=
  match eventGate ev.startTime ev.duration ctx.lingerLimit with
  | .bogus => ls
  | .expired => { ls with empty := false }
  | .keep => processValidEvent ctx { ls with empty := false } ev

def runEventLoop (ctx : EventCtx) (tables : cEitTables) (sched : cSchedule)
    (events : List SiEitEvent) : LoopState :=
  events.foldl (processEvent ctx)
    { schedule := sched, tables := tables, empty := true, modified := false,
      channelsModified := false, segmentStart := 0, segmentEnd := 0 }

-- cEIT::cEIT, eit.c lines 81-439, for one service: gate on the section
-- syncer, current-time plausibility, the OnActualTp precedence gate, the
-- per-event loop, the empty-present handling, and completion/pruning.
def processSection (st : EitState) (sec : EitSection) : ProcessResult :=
  let c := cEitTables.check st.eitTables sec.tid sec.version sec.sectionNumber
  let process := c.1
  let tables := c.2
  if sec.tid ≠ 0x4E ∧ process = false then
    { stage := .gateReject, eitTables := tables, schedule := st.schedule,
      scheduleModified := false, channelsModified := false,
      clearedRunningStatus := false, prunedWindow := none }
  else if st.now < VALID_TIME then
    { stage := .invalidTime, eitTables := tables, schedule := st.schedule,
      scheduleModified := false, channelsModified := false,
      clearedRunningStatus := false, prunedWindow := none }
  else
    let a := cSchedule.onActualTpUpd st.schedule sec.tid
    if a.1 = true ∧ sec.tid &&& 0xF0 = 0x60 then
      { stage := .onActualTpAbort, eitTables := tables, schedule := a.2,
        scheduleModified := false, channelsModified := false,
        clearedRunningStatus := false, prunedWindow := none }
    else
      let ctx : EventCtx :=
        { tid := sec.tid, version := sec.version, sectionNumber := sec.sectionNumber,
          process := process, lingerLimit := st.now - st.lingerTime }
      let ls := runEventLoop ctx tables a.2 sec.events
      let cleared := sec.tid = 0x4E ∧ ls.empty = true ∧ sec.sectionNumber = 0
      let sched2 := if sec.tid = 0x4E then { ls.schedule with presentSeen := true }
                    else ls.schedule
      if process then
        let p := cEitTables.processed ls.tables sec.tid sec.lastTableId
                   sec.sectionNumber sec.lastSectionNumber sec.segmentLastSectionNumber
        if ls.modified = true ∧ (0x50 ≤ sec.tid ∨ p.1 = true) then
          let w := if sec.tid = 0x4E ∧ sec.lastSectionNumber = 1 then
                     (p.2.tableStart, p.2.tableEnd)
                   else (ls.segmentStart, ls.segmentEnd)
          { stage := .completed, eitTables := p.2,
            schedule := dropOutdated (sortSchedule sched2) w.1 w.2 st.now st.lingerTime,
            scheduleModified := ls.modified, channelsModified := ls.channelsModified,
            clearedRunningStatus := decide cleared, prunedWindow := some w }
        else
          { stage := .completed, eitTables := p.2, schedule := sched2,
            scheduleModified := ls.modified, channelsModified := ls.channelsModified,
            clearedRunningStatus := decide cleared, prunedWindow := none }
      else
        { stage := .completed, eitTables := ls.tables, schedule := sched2,
          scheduleModified := ls.modified, channelsModified := ls.channelsModified,
          clearedRunningStatus := decide cleared, prunedWindow := none }

-- --- cTDT ------------------------------------------------------------------

/-- The process-wide debounce state of cTDT (eit.c lines 449-460): the time
of the last smooth adjustment, and the broadcast time and difference
observed by the previous invocation (with |diff| > MAX_TIME_DIFF). -/
structure TdtState where
  lastAdj : Int
  oldTime : Int
  oldDiff : Int
deriving DecidableEq, Repr

/-- The clock action taken by one cTDT invocation: nothing, a hard
clock_settime to the broadcast time, or a smooth adjtime slew. -/
inductive TdtAction where
  | none
  | hardSet
  | slew
deriving DecidableEq, Repr

-- cTDT::cTDT, eit.c lines 462-497. `dvbtim` is the broadcast time, `loctim`
-- the local time read at entry, and `now2` the value of the later time(NULL)
-- calls at lines 482-483 (the adjustment-interval check and stamp).
-- MAX_TIME_DIFF = 1, MAX_ADJ_DIFF = 10, ADJ_DELTA = 300 (lines 443-445).
def tdtStep (s : TdtState) (dvbtim loctim now2 : Int) : TdtAction × TdtState :=
  let diff := dvbtim - loctim
  if 1 < |diff| then
    let r : TdtAction × TdtState :=
      if s.oldTime ≠ dvbtim ∧ s.oldDiff = diff then
        if 10 < |diff| then (.hardSet, s)
        else if 300 < now2 - s.lastAdj then (.slew, { s with lastAdj := now2 })
        else (.none, s)
      else (.none, s)
    (r.1, { r.2 with oldTime := dvbtim, oldDiff := diff })
  else (.none, s)

-- --- Concrete inputs used by counterexamples and witnesses -----------------

-- An event written by table 0x50 (full-schedule provenance).
def ev5X : cEvent :=
  { eventID := 5, startTime := 200000000, duration := 10, tableID := 0x50,
    version := 2, runningStatus := 0, seen := false, hasTimer := false,
    title := some "a", shortText := none, description := none }

def c5State : EitState :=
  { eitTables := cEitTables.init,
    schedule := { events := [ev5X], onActualTp := true, presentSeen := false },
    now := 200000000, lingerTime := 0 }

-- A present/following (0x4E) section carrying the same event id with
-- different start time and duration.
def c5Section : EitSection :=
  { tid := 0x4E, version := 1, sectionNumber := 0, lastSectionNumber := 1,
    segmentLastSectionNumber := 1, lastTableId := 0x4E,
    events := [{ eventId := 5, startTime := 200000100, duration := 20,
                 runningStatus := 4, shortEvent := none, extendedText := none,
                 hasChannelLink := false }] }

-- Tracker state in which table 0x4E already carries version 1 with section 0
-- seen, so the gate (cEitTables::Check) reports "already processed".
def c6Tables : cEitTables :=
  { cEitTables.init with sectionSyncer := fun i =>
      if i = 0 then { version := some 1, seen := [0], lastSectionNumber := 1,
                      segmentLastSectionNumber := 1, complete := false }
      else freshSyncer }

def c6Event : cEvent :=
  { eventID := 5, startTime := 200000000, duration := 10, tableID := 0x51,
    version := 1, runningStatus := 0, seen := false, hasTimer := false,
    title := some "t", shortText := none, description := none }

def c6State : EitState :=
  { eitTables := c6Tables,
    schedule := { events := [c6Event], onActualTp := false, presentSeen := false },
    now := 200000000, lingerTime := 0 }

def c6Section : EitSection :=
  { tid := 0x4E, version := 1, sectionNumber := 0, lastSectionNumber := 1,
    segmentLastSectionNumber := 1, lastTableId := 0x4E,
    events := [{ eventId := 5, startTime := 200000100, duration := 20,
                 runningStatus := 0, shortEvent := some ("x", "y"),
                 extendedText := none, hasChannelLink := false }] }

-- Tracker state with a stale cached table end (777), to observe which window
-- a 0x4E pruning run actually uses.
def c7State : EitState :=
  { eitTables := { cEitTables.init with tableEnd := 777 },
    schedule := { events := [], onActualTp := false, presentSeen := false },
    now := 200000000, lingerTime := 0 }

-- A 0x4E table instance that declares last section number 0: it is complete
-- after its single (present) section, without a following segment.
def c7Section : EitSection :=
  { tid := 0x4E, version := 1, sectionNumber := 0, lastSectionNumber := 0,
    segmentLastSectionNumber := 0, lastTableId := 0x4E,
    events := [{ eventId := 7, startTime := 200000000, duration := 100,
                 runningStatus := 0, shortEvent := none, extendedText := none,
                 hasChannelLink := false }] }

def c8Ctx : EventCtx :=
  { tid := 0x4E, version := 1, sectionNumber := 0, process := true,
    lingerLimit := 200000000 }

def c8Sched : cSchedule := { events := [], onActualTp := false, presentSeen := false }

-- An NVOD placeholder event: all-ones start time field decodes negative.
def c8Events : List SiEitEvent :=
  [{ eventId := 9, startTime := -1, duration := 1800, runningStatus := 0,
     shortEvent := none, extendedText := none, hasChannelLink := false }]

def c3State : EitState :=
  { eitTables := cEitTables.init,
    schedule := { events := [], onActualTp := true, presentSeen := false },
    now := 200000000, lingerTime := 0 }

def c3Section : EitSection :=
  { tid := 0x60, version := 1, sectionNumber := 0, lastSectionNumber := 0,
    segmentLastSectionNumber := 0, lastTableId := 0x60, events := [] }

-- A schedule whose only event carries present/following provenance (0x4E),
-- and a 0x50 section that tries to update it by event id.
def c4Event : cEvent :=
  { eventID := 5, startTime := 200000000, duration := 10, tableID := 0x4E,
    version := 2, runningStatus := 4, seen := false, hasTimer := false,
    title := some "pf", shortText := none, description := none }

def c4Ctx : EventCtx :=
  { tid := 0x50, version := 3, sectionNumber := 0, process := true,
    lingerLimit := 200000000 }

def c4Sched : cSchedule :=
  { events := [c4Event], onActualTp := true, presentSeen := true }

def c4Events : List SiEitEvent :=
  [{ eventId := 5, startTime := 200000050, duration := 30, runningStatus := 0,
     shortEvent := some ("new", "text"), extendedText := some "desc",
     hasChannelLink := false }]

-- An expired (linger-dropped) but non-bogus event for the C10 witness.
def c10State : EitState :=
  { eitTables := cEitTables.init,
    schedule := { events := [c6Event], onActualTp := false, presentSeen := false },
    now := 200000000, lingerTime := 0 }

def c10Section : EitSection :=
  { tid := 0x4E, version := 1, sectionNumber := 0, lastSectionNumber := 1,
    segmentLastSectionNumber := 1, lastTableId := 0x4E,
    events := [{ eventId := 11, startTime := 100, duration := 10,
                 runningStatus := 4, shortEvent := none, extendedText := none,
                 hasChannelLink := false }] }

-- --- Helper predicates and lemmas ------------------------------------------

/-- Positional preservation of protected (present/following provenance)
events: every event of `orig` whose table id clamps to 0x4E is still at its
position in `cur`, at most with its seen flag raised. -/
def protectedPreserved (orig cur : List cEvent) : Prop :=
  ∀ (i : Nat) (e : cEvent), orig[i]? = some e → e.tableID ≤ 0x4E →
    cur[i]? = some e ∨ cur[i]? = some { e with seen := true }

/-- Positional preservation of the version stamp and the descriptor-derived
text fields of every event of `orig`. -/
def versionTextPreserved (orig cur : List cEvent) : Prop :=
  ∀ (i : Nat) (e : cEvent), orig[i]? = some e →
    ∃ e' : cEvent, cur[i]? = some e' ∧ e'.version = e.version ∧ e'.title = e.title ∧
      e'.shortText = e.shortText ∧ e'.description = e.description

theorem check_keeps_window (t : cEitTables) (tableId version sectionNumber : Nat) :
    (cEitTables.check t tableId version sectionNumber).2.tableStart = t.tableStart ∧
    (cEitTables.check t tableId version sectionNumber).2.tableEnd = t.tableEnd := by
  constructor <;> rfl

theorem processed_keeps_window (t : cEitTables)
    (tableId lastTableId sectionNumber lastSectionNumber segmentLastSectionNumber : Nat) :
    (cEitTables.processed t tableId lastTableId sectionNumber lastSectionNumber
        segmentLastSectionNumber).2.tableStart = t.tableStart ∧
    (cEitTables.processed t tableId lastTableId sectionNumber lastSectionNumber
        segmentLastSectionNumber).2.tableEnd = t.tableEnd := by
  simp only [cEitTables.processed]
  split <;> exact ⟨rfl, rfl⟩

-- --- C1 --------------------------------------------------------------------

/-- C1: for a present/following (0x4E) event whose decoded running status is
NotRunning and differs from the event's current status, the status applied
to the schedule is Pausing when this is the present slot (section 0) and the
current status is Pausing, and Undefined when this is the following slot
(section number nonzero). -/
theorem notRunning_override_policy (sn cur : Nat) (h : cur ≠ RunningStatusNotRunning) :
    (sn = 0 → cur = RunningStatusPausing →
      computeRunningStatus sn RunningStatusNotRunning cur = RunningStatusPausing) ∧
    (sn ≠ 0 →
      computeRunningStatus sn RunningStatusNotRunning cur = RunningStatusUndefined) := by
  have h' : RunningStatusNotRunning ≠ cur := Ne.symm h
  constructor
  · rintro rfl rfl
    decide
  · intro hns
    simp [computeRunningStatus, h', hns]

theorem notRunning_override_policy_witness :
    computeRunningStatus 0 RunningStatusNotRunning RunningStatusPausing =
        RunningStatusPausing ∧
    computeRunningStatus 1 RunningStatusNotRunning RunningStatusRunning =
        RunningStatusUndefined :=
  ⟨(notRunning_override_policy 0 RunningStatusPausing (by decide)).1 rfl rfl,
   (notRunning_override_policy 1 RunningStatusRunning (by decide)).2 (by decide)⟩

-- --- C2 --------------------------------------------------------------------

/-- C2: the existing event is looked up by event id when the table id is
0x4E or in 0x50..0x5F, and by exact start time when it is in 0x60..0x6F —
never both keys in the same lookup. -/
theorem lookup_key_by_table_class (tid : Nat) (l : List cEvent) (id : Nat) (t : Int) :
    ((tid = 0x4E ∨ (0x50 ≤ tid ∧ tid ≤ 0x5F)) →
        lookupEventIdx tid l id t = findIdxById l id) ∧
    ((0x60 ≤ tid ∧ tid ≤ 0x6F) →
        lookupEventIdx tid l id t = findIdxByTime l t) := by
  constructor
  · rintro (rfl | ⟨h1, h2⟩)
    · simp [lookupEventIdx]
    · have hm : tid &&& 0xF0 = 0x50 := by interval_cases tid <;> decide
      simp [lookupEventIdx, hm]
  · rintro ⟨h1, h2⟩
    have hne : tid ≠ 0x4E := by omega
    have hm : ¬(tid &&& 0xF0 = 0x50) := by interval_cases tid <;> decide
    simp [lookupEventIdx, hne, hm]

theorem lookup_key_by_table_class_witness :
    lookupEventIdx 0x52 [ev5X] 5 0 = findIdxById [ev5X] 5 ∧
    lookupEventIdx 0x62 [ev5X] 5 0 = findIdxByTime [ev5X] 0 :=
  ⟨(lookup_key_by_table_class 0x52 [ev5X] 5 0).1 (Or.inr (by decide)),
   (lookup_key_by_table_class 0x62 [ev5X] 5 0).2 (by decide)⟩

-- --- C8 --------------------------------------------------------------------

/-- C8 counterexample: an NVOD placeholder event (negative decoded start
time) passes the bogus-event rejection and marks the section non-empty, but
it is then skipped by the EPG linger check, so it never reaches identity
lookup and is not created in the schedule — it is not "processed". -/
theorem nvod_event_not_processed :
    eventGate (-1) 1800 200000000 = EventGate.expired ∧
    (runEventLoop c8Ctx cEitTables.init c8Sched c8Events).schedule.events = [] ∧
    (runEventLoop c8Ctx cEitTables.init c8Sched c8Events).empty = false := by
  refine ⟨by decide, by decide, by decide⟩

/-- C8 amended: events with start time zero, or positive start time and zero
duration, are rejected as bogus; an event with negative start time (NVOD
placeholder) is never rejected as bogus, but when it ends before the linger
limit it is skipped (classified expired) before identity lookup. -/
theorem event_rejection_characterization (s d L : Int) :
    ((s = 0 ∨ (0 < s ∧ d = 0)) → eventGate s d L = EventGate.bogus) ∧
    (s < 0 → eventGate s d L ≠ EventGate.bogus) ∧
    (s < 0 → s + d < L → eventGate s d L = EventGate.expired) := by
  refine ⟨fun h => ?_, fun h => ?_, fun h h2 => ?_⟩ <;> unfold eventGate
  · rw [if_pos h]
  · rw [if_neg (by omega)]
    split <;> simp
  · rw [if_neg (by omega), if_pos h2]

theorem event_rejection_characterization_witness :
    eventGate 0 100 0 = EventGate.bogus ∧
    eventGate (-1) 1800 200000000 ≠ EventGate.bogus ∧
    eventGate (-1) 1800 200000000 = EventGate.expired :=
  ⟨(event_rejection_characterization 0 100 0).1 (Or.inl rfl),
   (event_rejection_characterization (-1) 1800 200000000).2.1 (by decide),
   (event_rejection_characterization (-1) 1800 200000000).2.2 (by decide) (by decide)⟩

-- --- C9 --------------------------------------------------------------------

/-- C9 counterexample: a four-call trace of the clock-sync step. Call 2 acts
(hard set) upon broadcast time 1000120; call 4 acts again although its
broadcast time is the same 1000120 last acted upon — the debounce only
requires the broadcast time to differ from the one observed by the previous
call (call 3's 1000500), refuting "the broadcast time differs from the last
time acted upon". -/
theorem tdt_acts_on_reobserved_time :
    tdtStep ⟨0, 0, 0⟩ 1000020 1000000 1000000 = (TdtAction.none, ⟨0, 1000020, 20⟩) ∧
    tdtStep ⟨0, 1000020, 20⟩ 1000120 1000100 1000100 =
      (TdtAction.hardSet, ⟨0, 1000120, 20⟩) ∧
    tdtStep ⟨0, 1000120, 20⟩ 1000500 1000300 1000300 =
      (TdtAction.none, ⟨0, 1000500, 200⟩) ∧
    (tdtStep ⟨0, 1000500, 200⟩ 1000120 999920 999920).1 = TdtAction.hardSet := by
  refine ⟨by decide, by decide, by decide, by decide⟩

/-- C9 amended: no action when |diff| is at most 1 second (and the debounce
state is untouched); otherwise the observed broadcast time and diff are
recorded, and the step acts exactly when the diff equals the previously
observed diff and the broadcast time differs from the previously observed
broadcast time: a hard clock set when |diff| exceeds 10 seconds, else a
smooth slew when strictly more than 300 seconds have elapsed since the last
smoothing adjustment. -/
theorem tdt_action_characterization (s : TdtState) (d l n2 : Int) :
    (|d - l| ≤ 1 → tdtStep s d l n2 = (TdtAction.none, s)) ∧
    (1 < |d - l| → (tdtStep s d l n2).2.oldTime = d ∧
      (tdtStep s d l n2).2.oldDiff = d - l) ∧
    ((tdtStep s d l n2).1 = TdtAction.hardSet ↔
      1 < |d - l| ∧ s.oldTime ≠ d ∧ s.oldDiff = d - l ∧ 10 < |d - l|) ∧
    ((tdtStep s d l n2).1 = TdtAction.slew ↔
      1 < |d - l| ∧ s.oldTime ≠ d ∧ s.oldDiff = d - l ∧ |d - l| ≤ 10 ∧
        300 < n2 - s.lastAdj) := by
  simp only [tdtStep]
  split_ifs with h1 h2 h3 h4 <;> simp_all

theorem tdt_action_characterization_witness :
    tdtStep ⟨0, 0, 0⟩ 1000 1000 0 = (TdtAction.none, ⟨0, 0, 0⟩) ∧
    (tdtStep ⟨0, 100, 20⟩ 1020 1000 1000).2.oldTime = 1020 :=
  ⟨(tdt_action_characterization ⟨0, 0, 0⟩ 1000 1000 0).1 (by decide),
   ((tdt_action_characterization ⟨0, 100, 20⟩ 1020 1000 1000).2.1 (by decide)).1⟩

theorem getElem?_isLt {l : List cEvent} {i : Nat} {e : cEvent}
    (h : l[i]? = some e) : i < l.length := by
  rw [List.getElem?_eq_some] at h
  exact h.1

theorem processValidEvent_protected (ctx : EventCtx) (ev : SiEitEvent) (ls : LoopState)
    (orig : List cEvent) (ht : ctx.tid ≠ 0x4E)
    (hinv : protectedPreserved orig ls.schedule.events) :
    protectedPreserved orig (processValidEvent ctx ls ev).schedule.events := by
  simp only [processValidEvent]
  cases hL : lookupEventIdx ctx.tid ls.schedule.events ev.eventId ev.startTime with
  | none =>
      dsimp only
      intro i e hi hp
      rcases hinv i e hi hp with h | h
      · exact Or.inl (by rw [List.getElem?_append_left (getElem?_isLt h)]; exact h)
      · exact Or.inr (by rw [List.getElem?_append_left (getElem?_isLt h)]; exact h)
  | some i0 =>
      dsimp only
      by_cases hb : Nat.max ({ ls.schedule.events.getD i0 dfltEvent with
          seen := true }).tableID 0x4E = 0x4E ∧ ctx.tid ≠ 0x4E
      · rw [if_pos hb]
        dsimp only
        intro i e hi hp
        by_cases hii : i = i0
        · subst hii
          rcases hinv i e hi hp with h | h
          · have hg : ls.schedule.events.getD i dfltEvent = e := by
              rw [List.getD_eq_getElem?_getD, h]; rfl
            refine Or.inr ?_
            rw [List.getElem?_set_self (getElem?_isLt h), hg]
          · have hg : ls.schedule.events.getD i dfltEvent = { e with seen := true } := by
              rw [List.getD_eq_getElem?_getD, h]; rfl
            refine Or.inr ?_
            rw [List.getElem?_set_self (getElem?_isLt h), hg]
        · rcases hinv i e hi hp with h | h
          · exact Or.inl (by rw [List.getElem?_set_ne (Ne.symm hii)]; exact h)
          · exact Or.inr (by rw [List.getElem?_set_ne (Ne.symm hii)]; exact h)
      · rw [if_neg hb]
        have hA : ¬(Nat.max (ls.schedule.events.getD i0 dfltEvent).tableID 0x4E = 0x4E) :=
          fun hA => hb ⟨hA, ht⟩
        dsimp only
        intro i e hi hp
        by_cases hii : i = i0
        · subst hii
          exfalso
          apply hA
          rcases hinv i e hi hp with h | h
          · rw [List.getD_eq_getElem?_getD, h]
            exact Nat.max_eq_right hp
          · rw [List.getD_eq_getElem?_getD, h]
            exact Nat.max_eq_right hp
        · rcases hinv i e hi hp with h | h
          · exact Or.inl (by rw [List.getElem?_set_ne (Ne.symm hii)]; exact h)
          · exact Or.inr (by rw [List.getElem?_set_ne (Ne.symm hii)]; exact h)

theorem processEvent_protected (ctx : EventCtx) (ev : SiEitEvent) (ls : LoopState)
    (orig : List cEvent) (ht : ctx.tid ≠ 0x4E)
    (hinv : protectedPreserved orig ls.schedule.events) :
    protectedPreserved orig (processEvent ctx ls ev).schedule.events := by
  unfold processEvent
  cases hg : eventGate ev.startTime ev.duration ctx.lingerLimit with
  | bogus => exact hinv
  | expired => exact hinv
  | keep => exact processValidEvent_protected ctx ev _ orig ht hinv

theorem foldl_protected (ctx : EventCtx) (ht : ctx.tid ≠ 0x4E) (events : List SiEitEvent) :
    ∀ (ls : LoopState) (orig : List cEvent),
      protectedPreserved orig ls.schedule.events →
      protectedPreserved orig (events.foldl (processEvent ctx) ls).schedule.events := by
  induction events with
  | nil => intro ls orig h; exact h
  | cons ev rest ih =>
      intro ls orig h
      exact ih _ _ (processEvent_protected ctx ev ls orig ht h)

theorem runEventLoop_protected (ctx : EventCtx) (tables : cEitTables) (sched : cSchedule)
    (events : List SiEitEvent) (ht : ctx.tid ≠ 0x4E) :
    protectedPreserved sched.events (runEventLoop ctx tables sched events).schedule.events :=
  foldl_protected ctx ht events _ sched.events (fun _ _ hi _ => Or.inl hi)

-- --- C4 --------------------------------------------------------------------

/-- C4: an existing event whose provenance table id, clamped up to 0x4E,
equals 0x4E is left entirely unchanged by the per-event loop of a section
with any other table id — at most its seen flag is raised; in particular no
id, time, duration, text, or version field is overwritten. -/
theorem presentFollowing_not_overwritten (ctx : EventCtx) (tables : cEitTables)
    (sched : cSchedule) (events : List SiEitEvent) (i : Nat) (e : cEvent)
    (ht : ctx.tid ≠ 0x4E) (he : sched.events[i]? = some e)
    (hp : Nat.max e.tableID 0x4E = 0x4E) :
    (runEventLoop ctx tables sched events).schedule.events[i]? = some e ∨
    (runEventLoop ctx tables sched events).schedule.events[i]? =
      some { e with seen := true } := by
  have hle : e.tableID ≤ 0x4E := (Nat.max_le.mp (Nat.le_of_eq hp)).1
  exact runEventLoop_protected ctx tables sched events ht i e he hle

theorem presentFollowing_not_overwritten_witness :
    (runEventLoop c4Ctx cEitTables.init c4Sched c4Events).schedule.events[0]? =
      some c4Event ∨
    (runEventLoop c4Ctx cEitTables.init c4Sched c4Events).schedule.events[0]? =
      some { c4Event with seen := true } :=
  presentFollowing_not_overwritten c4Ctx cEitTables.init c4Sched c4Events 0 c4Event
    (by decide) (by decide) (by decide)

-- --- C5 --------------------------------------------------------------------

/-- C5 counterexample: a present/following (0x4E) section write does
overwrite the core identity data (start time, duration, provenance) of an
existing event that was written by a 0x5X table: the stored event of
c5State has table id 0x50 and start time 200000000, and after processing
the 0x4E section c5Section it carries start time 200000100, duration 20 and
table id 0x4E. -/
theorem pf_write_overwrites_5X_core :
    (c5State.schedule.events.getD 0 dfltEvent).tableID = 0x50 ∧
    (c5State.schedule.events.getD 0 dfltEvent).startTime = 200000000 ∧
    ((processSection c5State c5Section).schedule.events.getD 0 dfltEvent).startTime =
      200000100 ∧
    ((processSection c5State c5Section).schedule.events.getD 0 dfltEvent).duration = 20 ∧
    ((processSection c5State c5Section).schedule.events.getD 0 dfltEvent).tableID =
      0x4E := by
  refine ⟨by decide, by decide, by decide, by decide, by decide⟩

/-- C5 amended: the protection runs in the opposite direction — a write from
any section with table id other than 0x4E never overwrites the core
identity data (event id, start time, duration) of an existing event whose
provenance clamps to present/following (0x4E); a 0x4E write over a 0x5X
event is allowed (see the counterexample). -/
theorem pf_core_identity_protected (ctx : EventCtx) (tables : cEitTables)
    (sched : cSchedule) (events : List SiEitEvent) (i : Nat) (e : cEvent)
    (ht : ctx.tid ≠ 0x4E) (he : sched.events[i]? = some e)
    (hp : Nat.max e.tableID 0x4E = 0x4E) :
    ∃ e' : cEvent, (runEventLoop ctx tables sched events).schedule.events[i]? = some e' ∧
      e'.eventID = e.eventID ∧ e'.startTime = e.startTime ∧
      e'.duration = e.duration := by
  have hle : e.tableID ≤ 0x4E := (Nat.max_le.mp (Nat.le_of_eq hp)).1
  rcases runEventLoop_protected ctx tables sched events ht i e he hle with h | h
  · exact ⟨e, h, rfl, rfl, rfl⟩
  · exact ⟨{ e with seen := true }, h, rfl, rfl, rfl⟩

theorem pf_core_identity_protected_witness :
    ∃ e' : cEvent,
      (runEventLoop c4Ctx cEitTables.init c4Sched c4Events).schedule.events[0]? =
        some e' ∧ e'.eventID = c4Event.eventID ∧ e'.startTime = c4Event.startTime ∧
        e'.duration = c4Event.duration :=
  pf_core_identity_protected c4Ctx cEitTables.init c4Sched c4Events 0 c4Event
    (by decide) (by decide) (by decide)

theorem finishEvent_noProcess (ctx : EventCtx) (ev : SiEitEvent) (e : cEvent)
    (ht : ctx.tid = 0x4E) (hp : ctx.process = false) :
    (finishEvent ctx ev e).2.1 = false ∧ (finishEvent ctx ev e).2.2 = false ∧
    (finishEvent ctx ev e).1.version = e.version ∧
    (finishEvent ctx ev e).1.title = e.title ∧
    (finishEvent ctx ev e).1.shortText = e.shortText ∧
    (finishEvent ctx ev e).1.description = e.description := by
  simp only [finishEvent, ht, hp]
  split_ifs <;> simp_all

theorem processValidEvent_noProcess (ctx : EventCtx) (ev : SiEitEvent) (ls : LoopState)
    (orig : List cEvent) (ht : ctx.tid = 0x4E) (hp : ctx.process = false)
    (hinv : versionTextPreserved orig ls.schedule.events) :
    versionTextPreserved orig (processValidEvent ctx ls ev).schedule.events ∧
    (processValidEvent ctx ls ev).modified = ls.modified ∧
    (processValidEvent ctx ls ev).channelsModified = ls.channelsModified := by
  simp only [processValidEvent]
  cases hL : lookupEventIdx ctx.tid ls.schedule.events ev.eventId ev.startTime with
  | none =>
      dsimp only
      have hf := finishEvent_noProcess ctx ev
        { mkEvent ev.eventId with startTime := ev.startTime, duration := ev.duration }
        ht hp
      refine ⟨?_, ?_, ?_⟩
      · intro i e hi
        rcases hinv i e hi with ⟨e', he', h1, h2, h3, h4⟩
        exact ⟨e', by rw [List.getElem?_append_left (getElem?_isLt he')]; exact he',
               h1, h2, h3, h4⟩
      · rw [hf.1, Bool.or_false]
      · rw [hf.2.1, Bool.or_false]
  | some i0 =>
      dsimp only
      rw [if_neg (by simp [ht])]
      dsimp only
      have hf := finishEvent_noProcess ctx ev
        { ls.schedule.events.getD i0 dfltEvent with
          seen := true, eventID := ev.eventId, startTime := ev.startTime,
          duration := ev.duration } ht hp
      refine ⟨?_, ?_, ?_⟩
      · intro i e hi
        rcases hinv i e hi with ⟨e', he', h1, h2, h3, h4⟩
        by_cases hii : i = i0
        · subst hii
          have hg : ls.schedule.events.getD i dfltEvent = e' := by
            rw [List.getD_eq_getElem?_getD, he']; rfl
          refine ⟨_, List.getElem?_set_self (getElem?_isLt he'), ?_, ?_, ?_, ?_⟩
          · rw [hf.2.2.1, hg]; exact h1
          · rw [hf.2.2.2.1, hg]; exact h2
          · rw [hf.2.2.2.2.1, hg]; exact h3
          · rw [hf.2.2.2.2.2, hg]; exact h4
        · exact ⟨e', by rw [List.getElem?_set_ne (Ne.symm hii)]; exact he',
                 h1, h2, h3, h4⟩
      · rw [hf.1, Bool.or_false]
      · rw [hf.2.1, Bool.or_false]

theorem processEvent_noProcess (ctx : EventCtx) (ev : SiEitEvent) (ls : LoopState)
    (orig : List cEvent) (ht : ctx.tid = 0x4E) (hp : ctx.process = false)
    (hinv : versionTextPreserved orig ls.schedule.events) :
    versionTextPreserved orig (processEvent ctx ls ev).schedule.events ∧
    (processEvent ctx ls ev).modified = ls.modified ∧
    (processEvent ctx ls ev).channelsModified = ls.channelsModified := by
  unfold processEvent
  cases hg : eventGate ev.startTime ev.duration ctx.lingerLimit with
  | bogus => exact ⟨hinv, rfl, rfl⟩
  | expired => exact ⟨hinv, rfl, rfl⟩
  | keep => exact processValidEvent_noProcess ctx ev _ orig ht hp hinv

theorem foldl_noProcess (ctx : EventCtx) (ht : ctx.tid = 0x4E) (hp : ctx.process = false)
    (events : List SiEitEvent) :
    ∀ (ls : LoopState) (orig : List cEvent),
      versionTextPreserved orig ls.schedule.events →
      versionTextPreserved orig (events.foldl (processEvent ctx) ls).schedule.events ∧
      (events.foldl (processEvent ctx) ls).modified = ls.modified ∧
      (events.foldl (processEvent ctx) ls).channelsModified = ls.channelsModified := by
  induction events with
  | nil => intro ls orig h; exact ⟨h, rfl, rfl⟩
  | cons ev rest ih =>
      intro ls orig h
      have step := processEvent_noProcess ctx ev ls orig ht hp h
      have tail := ih (processEvent ctx ls ev) orig step.1
      exact ⟨tail.1, tail.2.1.trans step.2.1, tail.2.2.trans step.2.2⟩

-- --- C3 --------------------------------------------------------------------

/-- C3: once the schedule carries the OnActualTp mark (it has received 0x5X
data), any section in the 0x6X range is aborted before the per-event loop:
the schedule is unchanged and both store keys report modified = false. -/
theorem actualTp_blocks_0x6X (st : EitState) (sec : EitSection)
    (h1 : st.schedule.onActualTp = true) (h2 : sec.tid &&& 0xF0 = 0x60) :
    (processSection st sec).stage ≠ Stage.completed ∧
    (processSection st sec).schedule = st.schedule ∧
    (processSection st sec).scheduleModified = false ∧
    (processSection st sec).channelsModified = false ∧
    (processSection st sec).prunedWindow = none := by
  have hm : ¬(sec.tid &&& 0xF0 = 0x50) := by rw [h2]; decide
  simp only [processSection]
  by_cases g1 : sec.tid ≠ 0x4E ∧
      (cEitTables.check st.eitTables sec.tid sec.version sec.sectionNumber).1 = false
  · rw [if_pos g1]
    exact ⟨by simp, rfl, rfl, rfl, rfl⟩
  · rw [if_neg g1]
    by_cases g2 : st.now < VALID_TIME
    · rw [if_pos g2]
      exact ⟨by simp, rfl, rfl, rfl, rfl⟩
    · rw [if_neg g2]
      have ha : (cSchedule.onActualTpUpd st.schedule sec.tid).1 = true ∧
          sec.tid &&& 0xF0 = 0x60 := by
        refine ⟨?_, h2⟩
        simp [cSchedule.onActualTpUpd, hm, h1]
      rw [if_pos ha]
      refine ⟨by simp, ?_, rfl, rfl, rfl⟩
      simp [cSchedule.onActualTpUpd, hm]

theorem actualTp_blocks_0x6X_witness :
    (processSection c3State c3Section).stage ≠ Stage.completed ∧
    (processSection c3State c3Section).schedule = c3State.schedule ∧
    (processSection c3State c3Section).scheduleModified = false ∧
    (processSection c3State c3Section).channelsModified = false ∧
    (processSection c3State c3Section).prunedWindow = none :=
  actualTp_blocks_0x6X c3State c3Section (by decide) (by decide)

-- --- C6 --------------------------------------------------------------------

/-- C6 counterexample: a 0x4E section whose version is unchanged and whose
section number was already seen (the gate returns false) is reprocessed with
the store keys released unmodified — but the field merging of the existing
event's identity data is not skipped: the stored event's start time changes
from 200000000 to 200000100, refuting "all field merging skipped". -/
theorem unchanged_section_still_merges_identity :
    (cEitTables.check c6State.eitTables c6Section.tid c6Section.version
        c6Section.sectionNumber).1 = false ∧
    (processSection c6State c6Section).scheduleModified = false ∧
    (c6State.schedule.events.getD 0 dfltEvent).startTime = 200000000 ∧
    ((processSection c6State c6Section).schedule.events.getD 0 dfltEvent).startTime =
      200000100 := by
  refine ⟨by decide, by decide, by decide, by decide⟩

/-- C6 amended: reprocessing a section with unchanged version and
already-seen section number releases both store keys with modified = false
and never runs pruning; for table ids other than 0x4E processing stops at
the gate with the schedule untouched, while for 0x4E the running status is
re-evaluated and event identity fields may still be updated (and absent
events recreated), but version stamping and all descriptor/text merging are
skipped: every pre-existing event keeps its version, title, short text and
description. -/
theorem unchanged_section_no_modification (st : EitState) (sec : EitSection)
    (h : (cEitTables.check st.eitTables sec.tid sec.version sec.sectionNumber).1 = false) :
    (processSection st sec).scheduleModified = false ∧
    (processSection st sec).channelsModified = false ∧
    (processSection st sec).prunedWindow = none ∧
    (sec.tid ≠ 0x4E → (processSection st sec).stage = Stage.gateReject ∧
      (processSection st sec).schedule = st.schedule) ∧
    versionTextPreserved st.schedule.events (processSection st sec).schedule.events := by
  have hid : versionTextPreserved st.schedule.events st.schedule.events :=
    fun i e hi => ⟨e, hi, rfl, rfl, rfl, rfl⟩
  simp only [processSection]
  by_cases htid : sec.tid = 0x4E
  · have hm : ¬(sec.tid &&& 0xF0 = 0x50) := by rw [htid]; decide
    rw [if_neg (by simp [htid])]
    by_cases g2 : st.now < VALID_TIME
    · rw [if_pos g2]
      exact ⟨rfl, rfl, rfl, fun hn => absurd htid hn, hid⟩
    · rw [if_neg g2]
      rw [if_neg (by rintro ⟨-, hx⟩; rw [htid] at hx; exact absurd hx (by decide))]
      rw [if_neg (by simp [h])]
      simp only [cSchedule.onActualTpUpd, if_neg hm]
      have H := foldl_noProcess
        { tid := sec.tid, version := sec.version, sectionNumber := sec.sectionNumber,
          process := (cEitTables.check st.eitTables sec.tid sec.version
            sec.sectionNumber).1,
          lingerLimit := st.now - st.lingerTime }
        htid h sec.events
        { schedule := st.schedule,
          tables := (cEitTables.check st.eitTables sec.tid sec.version
            sec.sectionNumber).2,
          empty := true, modified := false, channelsModified := false,
          segmentStart := 0, segmentEnd := 0 }
        st.schedule.events hid
      rw [if_pos htid]
      refine ⟨?_, ?_, trivial, fun hn => absurd htid hn, ?_⟩
      · rw [runEventLoop]
        exact H.2.1
      · rw [runEventLoop]
        exact H.2.2
      · rw [runEventLoop]
        exact H.1
  · rw [if_pos ⟨htid, h⟩]
    exact ⟨rfl, rfl, rfl, fun _ => ⟨rfl, rfl⟩, hid⟩

theorem unchanged_section_no_modification_witness :
    (processSection c6State c6Section).scheduleModified = false ∧
    (processSection c6State c6Section).channelsModified = false :=
  ⟨(unchanged_section_no_modification c6State c6Section (by decide)).1,
   (unchanged_section_no_modification c6State c6Section (by decide)).2.1⟩

theorem processEvent_expired (ctx : EventCtx) (ev : SiEitEvent) (ls : LoopState)
    (h : eventGate ev.startTime ev.duration ctx.lingerLimit = EventGate.expired) :
    processEvent ctx ls ev = { ls with empty := false } := by
  unfold processEvent
  rw [h]

theorem foldl_all_expired (ctx : EventCtx) (events : List SiEitEvent)
    (h : ∀ ev ∈ events,
      eventGate ev.startTime ev.duration ctx.lingerLimit = EventGate.expired) :
    ∀ ls : LoopState, ls.empty = false →
      events.foldl (processEvent ctx) ls = ls := by
  induction events with
  | nil => intro ls _; rfl
  | cons ev rest ih =>
      intro ls hl
      rw [List.foldl_cons, processEvent_expired ctx ev ls (h ev (by simp))]
      have hsame : ({ ls with empty := false } : LoopState) = ls := by
        cases ls
        simp_all
      rw [hsame]
      exact ih (fun e he => h e (by simp [he])) ls hl

theorem runEventLoop_all_expired (ctx : EventCtx) (tables : cEitTables)
    (sched : cSchedule) (events : List SiEitEvent) (hne : events ≠ [])
    (hall : ∀ ev ∈ events,
      eventGate ev.startTime ev.duration ctx.lingerLimit = EventGate.expired) :
    runEventLoop ctx tables sched events =
      { schedule := sched, tables := tables, empty := false, modified := false,
        channelsModified := false, segmentStart := 0, segmentEnd := 0 } := by
  rcases events with _ | ⟨ev, rest⟩
  · exact absurd rfl hne
  · rw [runEventLoop, List.foldl_cons,
        processEvent_expired ctx ev _ (hall ev (by simp))]
    exact foldl_all_expired ctx rest (fun e he => hall e (by simp [he])) _ rfl

-- --- C10 -------------------------------------------------------------------

/-- C10: events that pass the bogus filter but end before the linger limit
are skipped before identity lookup — the schedule's event list is unchanged,
nothing is created or merged and the cached window is untouched — yet they
mark the section non-empty, so a present (0x4E, section 0) section holding
only such expired events does not clear the schedule's running status. -/
theorem expired_events_present_section (st : EitState) (sec : EitSection)
    (hn : VALID_TIME ≤ st.now) (ht : sec.tid = 0x4E) (hs : sec.sectionNumber = 0)
    (hne : sec.events ≠ [])
    (hall : ∀ ev ∈ sec.events,
      eventGate ev.startTime ev.duration (st.now - st.lingerTime) = EventGate.expired) :
    (processSection st sec).clearedRunningStatus = false ∧
    (processSection st sec).schedule.events = st.schedule.events ∧
    (processSection st sec).scheduleModified = false ∧
    (processSection st sec).prunedWindow = none ∧
    (processSection st sec).eitTables.tableStart = st.eitTables.tableStart ∧
    (processSection st sec).eitTables.tableEnd = st.eitTables.tableEnd := by
  have hm : ¬(sec.tid &&& 0xF0 = 0x50) := by rw [ht]; decide
  simp only [processSection]
  rw [if_neg (by simp [ht])]
  rw [if_neg (not_lt.mpr hn)]
  rw [if_neg (by rintro ⟨-, hx⟩; rw [ht] at hx; exact absurd hx (by decide))]
  simp only [cSchedule.onActualTpUpd, if_neg hm]
  rw [runEventLoop_all_expired _ _ _ _ hne hall]
  rw [if_pos ht]
  by_cases hp : (cEitTables.check st.eitTables sec.tid sec.version
      sec.sectionNumber).1 = true
  · rw [if_pos hp]
    rw [if_neg (by simp)]
    refine ⟨by simp, rfl, rfl, rfl, ?_, ?_⟩
    · exact (processed_keeps_window _ _ _ _ _ _).1.trans (check_keeps_window _ _ _ _).1
    · exact (processed_keeps_window _ _ _ _ _ _).2.trans (check_keeps_window _ _ _ _).2
  · rw [if_neg hp]
    refine ⟨by simp, rfl, rfl, rfl, ?_, ?_⟩
    · exact (check_keeps_window _ _ _ _).1
    · exact (check_keeps_window _ _ _ _).2

theorem expired_events_present_section_witness :
    (processSection c10State c10Section).clearedRunningStatus = false ∧
    (processSection c10State c10Section).schedule.events = c10State.schedule.events ∧
    (processSection c10State c10Section).scheduleModified = false ∧
    (processSection c10State c10Section).prunedWindow = none ∧
    (processSection c10State c10Section).eitTables.tableStart =
      c10State.eitTables.tableStart ∧
    (processSection c10State c10Section).eitTables.tableEnd =
      c10State.eitTables.tableEnd :=
  expired_events_present_section c10State c10Section (by decide) (by decide)
    (by decide) (by decide) (by decide)

-- --- C7 --------------------------------------------------------------------

/-- C7 counterexample: a 0x4E table instance that declares last section
number 0 completes with its single (present) section, and pruning then runs
using the section's own window (200000000, 200000100) — not the cached
present+following window, whose cached table end is still the stale 777.
This refutes both "pruning for 0x4E waits for both present and following
segments" and "for 0x4E the pruning window used is the cached
present+following window". -/
theorem pruning_window_not_cached_for_lastSection0 :
    (processSection c7State c7Section).prunedWindow = some (200000000, 200000100) ∧
    (processSection c7State c7Section).eitTables.tableEnd = 777 ∧
    ((200000100 : Int) ≠ 777) := by
  refine ⟨by decide, by decide, by decide⟩

/-- C7 amended: pruning (sort plus drop-outdated) runs only when the gate
reported the section as new, the per-event loop modified the schedule, and
the table id is at least 0x50 or the table instance is complete for its
declared last section number; the window passed to DropOutdated is the
cached present+following window only for a 0x4E table whose declared last
section number is 1 (the normal present+following layout), otherwise the
section's own window; and the final schedule is the sorted schedule with
outdated events outside that window dropped. -/
theorem pruning_gate_characterization (st : EitState) (sec : EitSection)
    (process : Bool) (tables1 : cEitTables)
    (hc : cEitTables.check st.eitTables sec.tid sec.version sec.sectionNumber =
      (process, tables1))
    (a1 : Bool) (sched1 : cSchedule)
    (ha : cSchedule.onActualTpUpd st.schedule sec.tid = (a1, sched1))
    (ls : LoopState)
    (hl : runEventLoop
        { tid := sec.tid, version := sec.version, sectionNumber := sec.sectionNumber,
          process := process, lingerLimit := st.now - st.lingerTime }
        tables1 sched1 sec.events = ls)
    (w : Int × Int) (hw : (processSection st sec).prunedWindow = some w) :
    process = true ∧ ls.modified = true ∧
    (0x50 ≤ sec.tid ∨
      (cEitTables.processed ls.tables sec.tid sec.lastTableId sec.sectionNumber
        sec.lastSectionNumber sec.segmentLastSectionNumber).1 = true) ∧
    w = (if sec.tid = 0x4E ∧ sec.lastSectionNumber = 1 then
          (ls.tables.tableStart, ls.tables.tableEnd)
         else (ls.segmentStart, ls.segmentEnd)) ∧
    (processSection st sec).schedule =
      dropOutdated (sortSchedule (if sec.tid = 0x4E then
          { ls.schedule with presentSeen := true } else ls.schedule))
        w.1 w.2 st.now st.lingerTime := by
  simp only [processSection, hc, ha] at hw ⊢
  rw [hl] at hw ⊢
  split_ifs at hw ⊢ with g1 g2 g3 g4 g5 g6 g7 g8 g9 g10
  all_goals
    dsimp only at hw ⊢
  all_goals
    rw [Option.some.injEq] at hw
  all_goals
    subst hw
    have gmod : ls.modified = true ∧ (0x50 ≤ sec.tid ∨
        (cEitTables.processed ls.tables sec.tid sec.lastTableId sec.sectionNumber
          sec.lastSectionNumber sec.segmentLastSectionNumber).1 = true) := by
      assumption
    refine ⟨by assumption, gmod.1, gmod.2, ?_, ?_⟩
    · first
       | rfl
       | exact Prod.ext (processed_keeps_window _ _ _ _ _ _).1
           (processed_keeps_window _ _ _ _ _ _).2
    · rfl

theorem pruning_gate_characterization_witness :
    (cEitTables.check c7State.eitTables c7Section.tid c7Section.version
      c7Section.sectionNumber).1 = true :=
  (pruning_gate_characterization c7State c7Section
    (cEitTables.check c7State.eitTables c7Section.tid c7Section.version
      c7Section.sectionNumber).1
    (cEitTables.check c7State.eitTables c7Section.tid c7Section.version
      c7Section.sectionNumber).2 rfl
    (cSchedule.onActualTpUpd c7State.schedule c7Section.tid).1
    (cSchedule.onActualTpUpd c7State.schedule c7Section.tid).2 rfl
    (runEventLoop
      { tid := c7Section.tid, version := c7Section.version,
        sectionNumber := c7Section.sectionNumber,
        process := (cEitTables.check c7State.eitTables c7Section.tid c7Section.version
          c7Section.sectionNumber).1,
        lingerLimit := c7State.now - c7State.lingerTime }
      (cEitTables.check c7State.eitTables c7Section.tid c7Section.version
        c7Section.sectionNumber).2
      (cSchedule.onActualTpUpd c7State.schedule c7Section.tid).2 c7Section.events) rfl
    (200000000, 200000100) (by decide)).1
